import Mathlib

/-!
# Verification of `CSpxResourceManager` (source/core/factory/resource_manager.cpp)

A shallow embedding of the resource-manager core of the Speech SDK:

* a module factory (`ISpxModuleFactory` behind a `shared_ptr`) is modelled as a
  record holding its single operation `CreateObject : String → String → Option α`,
  where `α` stands for the non-null `void*` results and `none` models `nullptr`;
* the manager's only data member `m_moduleFactories` (a `std::list` of factory
  handles, walked front to back by a range-`for`) is a `List (ModuleFactory α)`;
* `CSpxModuleFactory::Get` (dynamic-library resolution, out of scope per the
  design) is an opaque resolver parameter `Get : String → ModuleFactory α`;
* the constructor's three preprocessor branches (`__linux__`, `__MACH__`, else)
  are a `Platform` parameter, and the hard-coded name sequence pushed on each
  branch is `moduleFactoryNames`;
* the method `CSpxResourceManager::CreateObject` is embedded twice: as the plain
  loop `createObjectLoop`, and as the instrumented `createObjectLoopTrace` that
  additionally records, for every factory consulted, its position in the list
  and the exact argument strings handed to it (for the short-circuit and
  argument-forwarding properties).  The two agree (`createObjectLoopTrace_fst`).
-/

/-- One loadable module's factory capability: the single fallible, non-throwing
operation `ISpxModuleFactory::CreateObject(className, interfaceName)`.
`none` models the `nullptr` result ("cannot build this pair"). -/
structure ModuleFactory (α : Type) where
  CreateObject : String → String → Option α

/-- The resource manager's state: its sole data member `m_moduleFactories`,
an ordered sequence of module-factory handles. -/
structure CSpxResourceManager (α : Type) where
  m_moduleFactories : List (ModuleFactory α)

/-- The loop body of `CSpxResourceManager::CreateObject`: walk the factory list
front to back, return the first non-null result, else null (`none`). -/
def createObjectLoop {α : Type} : List (ModuleFactory α) → String → String → Option α
  | [], _, _ => none
  | f :: rest, className, interfaceName =>
    match f.CreateObject className interfaceName with
    | some obj => some obj
    | none => createObjectLoop rest className interfaceName

/-- The method `CSpxResourceManager::CreateObject`, with the object state passed
explicitly: the body only reads `m_moduleFactories`, so the post-state is the
receiver unchanged. -/
def CSpxResourceManager.CreateObject {α : Type} (rm : CSpxResourceManager α)
    (className interfaceName : String) : Option α × CSpxResourceManager α :=
  (createObjectLoop rm.m_moduleFactories className interfaceName, rm)

/-- The three preprocessor branches of the constructor. -/
inductive Platform
  | linux
  | mach
  | other
deriving DecidableEq

/-- The hard-coded sequence of module names pushed (in source order) onto
`m_moduleFactories` by `CSpxResourceManager::CSpxResourceManager()` on each
platform branch. -/
def moduleFactoryNames : Platform → List String
  | .linux =>
    [ "libcarbon-mock.so",
      "libMicrosoft.CognitiveServices.Speech.extension.pma.so",
      "libMicrosoft.CognitiveServices.Speech.extension.kws.so",
      "carbon" ]
  | .mach =>
    [ "libcarbon-mock.dylib",
      "libMicrosoft.CognitiveServices.Speech.extension.pma.dylib",
      "libMicrosoft.CognitiveServices.Speech.extension.kws.dylib",
      "carbon" ]
  | .other =>
    [ "carbon-mock.dll",
      "Microsoft.CognitiveServices.Speech.extension.pma.dll",
      "Microsoft.CognitiveServices.Speech.extension.kws.dll",
      "carbon",
      "carbon-unidec.dll" ]

/-- The name of the mock-reserved module pushed first on each platform branch. -/
def mockModuleName : Platform → String
  | .linux => "libcarbon-mock.so"
  | .mach => "libcarbon-mock.dylib"
  | .other => "carbon-mock.dll"

/-- The constructor `CSpxResourceManager::CSpxResourceManager()`: resolve the
platform's hard-coded name sequence through `CSpxModuleFactory::Get` (the
opaque resolver `Get`), in order. -/
def CSpxResourceManager.construct {α : Type} (Get : String → ModuleFactory α)
    (p : Platform) : CSpxResourceManager α :=
  ⟨(moduleFactoryNames p).map Get⟩

/-- A record of one consultation made by the creation loop: which list position
was consulted and the exact argument strings handed to that factory. -/
structure CallEvent where
  position : Nat
  className : String
  interfaceName : String
deriving DecidableEq

/-- The creation loop instrumented with a trace: identical control flow to
`createObjectLoop`, but also records a `CallEvent` for every factory invoked
(`pos` is the list position of the head factory). -/
def createObjectLoopTrace {α : Type} :
    List (ModuleFactory α) → Nat → String → String → Option α × List CallEvent
  | [], _, _, _ => (none, [])
  | f :: rest, pos, className, interfaceName =>
    match f.CreateObject className interfaceName with
    | some obj => (some obj, [⟨pos, className, interfaceName⟩])
    | none =>
      let r := createObjectLoopTrace rest (pos + 1) className interfaceName
      (r.fst, ⟨pos, className, interfaceName⟩ :: r.snd)

/-- The instrumented creation call, positions counted from the list head. -/
def CreateObjectTrace {α : Type} (fs : List (ModuleFactory α))
    (className interfaceName : String) : Option α × List CallEvent :=
  createObjectLoopTrace fs 0 className interfaceName

/-- Run a sequence of `CreateObject` calls against the manager, threading the
explicit state from call to call and collecting the results in order. -/
def runCalls {α : Type} (rm : CSpxResourceManager α) :
    List (String × String) → List (Option α) × CSpxResourceManager α
  | [] => ([], rm)
  | q :: rest =>
    let step := rm.CreateObject q.fst q.snd
    let cont := runCalls step.snd rest
    (step.fst :: cont.fst, cont.snd)

/-! ## General lemmas about the creation loop -/

/-- The instrumented loop computes the same result as the plain loop. -/
theorem createObjectLoopTrace_fst {α : Type} (fs : List (ModuleFactory α))
    (pos : Nat) (c n : String) :
    (createObjectLoopTrace fs pos c n).fst = createObjectLoop fs c n := by
  induction fs generalizing pos with
  | nil => rfl
  | cons f rest ih =>
    simp only [createObjectLoopTrace, createObjectLoop]
    cases f.CreateObject c n with
    | some obj => rfl
    | none => simpa using ih (pos + 1)

/-- If the factory at position `i` answers `some r` and every factory strictly
before it answers `none`, the loop returns `some r`. -/
theorem createObjectLoop_first_success {α : Type} :
    ∀ (fs : List (ModuleFactory α)) (c n : String) (i : Nat) (hi : i < fs.length) (r : α),
      (fs.get ⟨i, hi⟩).CreateObject c n = some r →
      (∀ j (hj : j < i), (fs.get ⟨j, Nat.lt_trans hj hi⟩).CreateObject c n = none) →
      createObjectLoop fs c n = some r
  | [], _, _, i, hi, _, _, _ => absurd hi (Nat.not_lt_zero i)
  | f :: rest, c, n, 0, _, r, hsome, _ => by
    simp only [List.get] at hsome
    simp only [createObjectLoop, hsome]
  | f :: rest, c, n, i + 1, hi, r, hsome, hbefore => by
    have hf : f.CreateObject c n = none := hbefore 0 (Nat.succ_pos i)
    simp only [createObjectLoop, hf]
    exact createObjectLoop_first_success rest c n i (Nat.lt_of_succ_lt_succ hi) r hsome
      (fun j hj => hbefore (j + 1) (Nat.succ_lt_succ hj))

/-- Every event recorded by the instrumented loop carries the exact argument
strings of the call, and a position at or above the starting offset. -/
theorem createObjectLoopTrace_events {α : Type} :
    ∀ (fs : List (ModuleFactory α)) (pos : Nat) (c n : String) (ev : CallEvent),
      ev ∈ (createObjectLoopTrace fs pos c n).snd →
      ev.className = c ∧ ev.interfaceName = n
  | [], _, _, _, _, hev => absurd hev (by simp [createObjectLoopTrace])
  | f :: rest, pos, c, n, ev, hev => by
    simp only [createObjectLoopTrace] at hev
    cases hf : f.CreateObject c n with
    | some obj =>
      rw [hf] at hev
      simp only [List.mem_singleton] at hev
      subst hev
      exact ⟨rfl, rfl⟩
    | none =>
      rw [hf] at hev
      simp only [List.mem_cons] at hev
      cases hev with
      | inl h => subst h; exact ⟨rfl, rfl⟩
      | inr h => exact createObjectLoopTrace_events rest (pos + 1) c n ev h

/-! ## Claim theorems -/

/-- C1. Priority correctness: for every className/interfaceName pair and every
factory list, if the factory at position `i` of the ordered list returns a
non-none result for that pair and every factory at a position strictly before
`i` returns none, then `CreateObject(className, interfaceName)` returns exactly
the result produced by the factory at position `i`. -/
theorem C1_priority_correctness {α : Type} (rm : CSpxResourceManager α)
    (className interfaceName : String) (i : Nat) (hi : i < rm.m_moduleFactories.length)
    (r : α)
    (hsome : (rm.m_moduleFactories.get ⟨i, hi⟩).CreateObject className interfaceName = some r)
    (hbefore : ∀ j (hj : j < i),
      (rm.m_moduleFactories.get ⟨j, Nat.lt_trans hj hi⟩).CreateObject className interfaceName
        = none) :
    (rm.CreateObject className interfaceName).fst = some r :=
  createObjectLoop_first_success rm.m_moduleFactories className interfaceName i hi r hsome hbefore

/-- Witness for C1: a two-factory list where the first declines and the second
produces `7`; `CreateObject` returns `7`. -/
theorem C1_priority_correctness_witness :
    ((CSpxResourceManager.CreateObject
        ⟨[⟨fun _ _ => none⟩, ⟨fun _ _ => some 7⟩]⟩ "A" "IA").fst : Option Nat) = some 7 :=
  C1_priority_correctness ⟨[⟨fun _ _ => none⟩, ⟨fun _ _ => some 7⟩]⟩ "A" "IA" 1
    (by decide) 7 rfl
    (fun j hj => by
      interval_cases j
      · rfl)

/-- C2. Mock override correctness: in the list built by the constructor, the
mock-reserved factory is placed first (before every production factory), so for
any class/interface pair that both the mock factory and a later production
factory can satisfy, `CreateObject` returns the mock factory's result, and not
the production factory's result whenever the two are distinguishable. -/
theorem C2_mock_override {α : Type} (Get : String → ModuleFactory α) (p : Platform)
    (className interfaceName : String) (m : α)
    (hmock : (Get (mockModuleName p)).CreateObject className interfaceName = some m)
    (j : Nat) (hj0 : 0 < j)
    (hjlen : j < (CSpxResourceManager.construct Get p).m_moduleFactories.length) (r : α)
    (hprod : (((CSpxResourceManager.construct Get p).m_moduleFactories.get
        ⟨j, hjlen⟩).CreateObject className interfaceName) = some r) :
    (CSpxResourceManager.construct Get p).m_moduleFactories.head?
        = some (Get (mockModuleName p)) ∧
    ((CSpxResourceManager.construct Get p).CreateObject className interfaceName).fst = some m ∧
    (m ≠ r →
      ((CSpxResourceManager.construct Get p).CreateObject className interfaceName).fst
        ≠ some r) := by
  obtain ⟨rest, hshape⟩ : ∃ rest,
      (CSpxResourceManager.construct Get p).m_moduleFactories
        = Get (mockModuleName p) :: rest := by
    cases p <;> exact ⟨_, rfl⟩
  refine ⟨by rw [hshape]; rfl, ?_, ?_⟩
  · show createObjectLoop (CSpxResourceManager.construct Get p).m_moduleFactories
      className interfaceName = some m
    rw [hshape]
    simp [createObjectLoop, hmock]
  · intro hne
    show createObjectLoop (CSpxResourceManager.construct Get p).m_moduleFactories
      className interfaceName ≠ some r
    rw [hshape]
    simpa [createObjectLoop, hmock] using hne

/-- Resolver for the C2 witness: the mock module claims "Foo"/"IFoo" with the
distinguishable token `1`; every other module claims the same pair with `2`. -/
def c2Get : String → ModuleFactory Nat := fun s =>
  if s = "libcarbon-mock.so" then
    ⟨fun c n => if c = "Foo" ∧ n = "IFoo" then some 1 else none⟩
  else
    ⟨fun c n => if c = "Foo" ∧ n = "IFoo" then some 2 else none⟩

/-- Witness for C2: on the Linux list with `c2Get`, both the mock (position 0)
and the core module (position 3) claim "Foo"/"IFoo", and the mock's token `1`
is returned. -/
theorem C2_mock_override_witness :
    (CSpxResourceManager.construct c2Get Platform.linux).m_moduleFactories.head?
        = some (c2Get (mockModuleName Platform.linux)) ∧
    ((CSpxResourceManager.construct c2Get Platform.linux).CreateObject "Foo" "IFoo").fst
        = some 1 ∧
    ((1 : Nat) ≠ 2 →
      ((CSpxResourceManager.construct c2Get Platform.linux).CreateObject "Foo" "IFoo").fst
        ≠ some 2) :=
  C2_mock_override c2Get Platform.linux "Foo" "IFoo" 1 (by decide) 3 (by decide)
    (by decide) 2 (by decide)

/-- C3. Short-circuit: if the factory at position `i` is the first to return a
non-none result, the factories consulted during the call are exactly those at
positions `0, 1, ..., i` — the winning factory and the ones before it (which
all returned none); no factory at a later position is invoked. -/
theorem C3_short_circuit {α : Type} (fs : List (ModuleFactory α))
    (className interfaceName : String) (i : Nat) (hi : i < fs.length) (r : α)
    (hsome : (fs.get ⟨i, hi⟩).CreateObject className interfaceName = some r)
    (hbefore : ∀ j (hj : j < i),
      (fs.get ⟨j, Nat.lt_trans hj hi⟩).CreateObject className interfaceName = none) :
    (CreateObjectTrace fs className interfaceName).snd.map CallEvent.position
      = List.range (i + 1) := by
  rw [List.range_eq_range']
  exact aux fs className interfaceName i hi r hsome hbefore 0
where
  aux : ∀ (fs : List (ModuleFactory α)) (c n : String) (i : Nat) (hi : i < fs.length) (r : α),
      (fs.get ⟨i, hi⟩).CreateObject c n = some r →
      (∀ j (hj : j < i), (fs.get ⟨j, Nat.lt_trans hj hi⟩).CreateObject c n = none) →
      ∀ pos, (createObjectLoopTrace fs pos c n).snd.map CallEvent.position
        = List.range' pos (i + 1)
  | [], _, _, i, hi, _, _, _, _ => absurd hi (Nat.not_lt_zero i)
  | f :: rest, c, n, 0, _, r, hsome, _, pos => by
    simp only [List.get] at hsome
    simp [createObjectLoopTrace, hsome, List.range']
  | f :: rest, c, n, i + 1, hi, r, hsome, hbefore, pos => by
    have hf : f.CreateObject c n = none := hbefore 0 (Nat.succ_pos i)
    simp only [createObjectLoopTrace, hf, List.map_cons, List.range'_succ]
    exact congrArg (pos :: ·)
      (aux rest c n i (Nat.lt_of_succ_lt_succ hi) r hsome
        (fun j hj => hbefore (j + 1) (Nat.succ_lt_succ hj)) (pos + 1))

/-- Witness for C3: in a three-factory list where the second factory is the
first to succeed, exactly positions 0 and 1 are consulted, never position 2. -/
theorem C3_short_circuit_witness :
    (CreateObjectTrace
        ([⟨fun _ _ => none⟩, ⟨fun _ _ => some 5⟩, ⟨fun _ _ => some 9⟩] :
          List (ModuleFactory Nat)) "A" "IA").snd.map CallEvent.position
      = List.range 2 :=
  C3_short_circuit [⟨fun _ _ => none⟩, ⟨fun _ _ => some 5⟩, ⟨fun _ _ => some 9⟩]
    "A" "IA" 1 (by decide) 5 rfl
    (fun j hj => by
      interval_cases j
      · rfl)

/-- C4. Exhaustion correctness: if every factory in the list returns none for
the requested pair (including the empty-list case), `CreateObject` returns
none — no distinguished error value, no error raised. -/
theorem C4_exhaustion {α : Type} (rm : CSpxResourceManager α)
    (className interfaceName : String)
    (h : ∀ f ∈ rm.m_moduleFactories, f.CreateObject className interfaceName = none) :
    (rm.CreateObject className interfaceName).fst = none := by
  obtain ⟨fs⟩ := rm
  show createObjectLoop fs className interfaceName = none
  induction fs with
  | nil => rfl
  | cons f rest ih =>
    have hf : f.CreateObject className interfaceName = none := h f (by simp)
    simp only [createObjectLoop, hf]
    exact ih (fun g hg => h g (by simp [hg]))

/-- Witness for C4: the empty factory list yields none. -/
theorem C4_exhaustion_witness :
    ((CSpxResourceManager.CreateObject ⟨[]⟩ "C" "IC").fst : Option Nat) = none :=
  C4_exhaustion ⟨[]⟩ "C" "IC" (fun f hf => absurd hf (by simp))

/-- C5 counterexample: on the `other` (Windows) branch the constructor pushes
"carbon-unidec.dll" after "carbon", so the last entry of the list is not the
core module "carbon". -/
theorem C5_final_entry_counterexample :
    (moduleFactoryNames Platform.other).getLast? = some "carbon-unidec.dll" ∧
    ¬ (moduleFactoryNames Platform.other).getLast? = some "carbon" := by
  decide

/-- C5 amended: on the Linux and macOS branches the last entry of the
constructed list is the handle obtained for "carbon"; on the remaining
(Windows) branch the handle for "carbon" sits at position 3 and is followed by
exactly one more entry, the handle for "carbon-unidec.dll", which is the last. -/
theorem C5_final_entry_amended {α : Type} (Get : String → ModuleFactory α) :
    (CSpxResourceManager.construct Get Platform.linux).m_moduleFactories.getLast?
        = some (Get "carbon") ∧
    (CSpxResourceManager.construct Get Platform.mach).m_moduleFactories.getLast?
        = some (Get "carbon") ∧
    ((CSpxResourceManager.construct Get Platform.other).m_moduleFactories)[3]?
        = some (Get "carbon") ∧
    (CSpxResourceManager.construct Get Platform.other).m_moduleFactories.length = 5 ∧
    (CSpxResourceManager.construct Get Platform.other).m_moduleFactories.getLast?
        = some (Get "carbon-unidec.dll") :=
  ⟨rfl, rfl, rfl, rfl, rfl⟩

/-- The logical identity of each literal module name used by the constructor:
the mock override module, the pma extension, the kws extension, the core
production module, and the Windows-only unidec extension. -/
inductive LogicalModule
  | mock
  | pma
  | kws
  | core
  | unidec
deriving DecidableEq

/-- Classify a literal module-name string by the logical module it resolves. -/
def logicalModule (s : String) : Option LogicalModule :=
  if s = "libcarbon-mock.so" ∨ s = "libcarbon-mock.dylib" ∨ s = "carbon-mock.dll" then
    some .mock
  else if s = "libMicrosoft.CognitiveServices.Speech.extension.pma.so"
      ∨ s = "libMicrosoft.CognitiveServices.Speech.extension.pma.dylib"
      ∨ s = "Microsoft.CognitiveServices.Speech.extension.pma.dll" then
    some .pma
  else if s = "libMicrosoft.CognitiveServices.Speech.extension.kws.so"
      ∨ s = "libMicrosoft.CognitiveServices.Speech.extension.kws.dylib"
      ∨ s = "Microsoft.CognitiveServices.Speech.extension.kws.dll" then
    some .kws
  else if s = "carbon" then
    some .core
  else if s = "carbon-unidec.dll" then
    some .unidec
  else
    none

/-- C6 counterexample: the three platform branches do not consist of the same
logical modules — the `other` (Windows) branch has a fifth entry, the unidec
extension, absent from the Linux and macOS branches. -/
theorem C6_order_counterexample :
    (moduleFactoryNames Platform.other).map logicalModule
      ≠ (moduleFactoryNames Platform.linux).map logicalModule ∧
    (moduleFactoryNames Platform.linux).map logicalModule
      = [some .mock, some .pma, some .kws, some .core] ∧
    (moduleFactoryNames Platform.other).map logicalModule
      = [some .mock, some .pma, some .kws, some .core, some .unidec] := by
  decide

/-- C6 amended: the Linux and macOS branches build the same logical sequence
mock, pma, kws, core; the `other` (Windows) branch builds that same sequence
followed by one extra production entry (unidec), so the three branches agree on
the relative order of the four common logical modules but not on the whole
list. -/
theorem C6_order_amended :
    (moduleFactoryNames Platform.linux).map logicalModule
      = [some LogicalModule.mock, some .pma, some .kws, some .core] ∧
    (moduleFactoryNames Platform.mach).map logicalModule
      = [some .mock, some .pma, some .kws, some .core] ∧
    (moduleFactoryNames Platform.other).map logicalModule
      = [some .mock, some .pma, some .kws, some .core, some .unidec] ∧
    ((moduleFactoryNames Platform.other).take 4).map logicalModule
      = (moduleFactoryNames Platform.linux).map logicalModule := by
  decide

/-- C7. Determinism: against the same (unchanged) factory list, any two calls
to `CreateObject` with identical className and interfaceName return equal
results; in particular the call after a first call (whose post-state is the
unchanged manager) returns the same result as the first. -/
theorem C7_determinism {α : Type} (rm rm2 : CSpxResourceManager α)
    (className interfaceName : String)
    (hsame : rm2.m_moduleFactories = rm.m_moduleFactories) :
    (rm2.CreateObject className interfaceName).fst
        = (rm.CreateObject className interfaceName).fst ∧
    (((rm.CreateObject className interfaceName).snd.CreateObject className interfaceName).fst
        = (rm.CreateObject className interfaceName).fst) := by
  constructor
  · show createObjectLoop rm2.m_moduleFactories className interfaceName
      = createObjectLoop rm.m_moduleFactories className interfaceName
    rw [hsame]
  · rfl

/-- Witness for C7: two managers holding the same single-factory list answer
"A"/"IA" identically. -/
theorem C7_determinism_witness :
    ((CSpxResourceManager.CreateObject ⟨[⟨fun _ _ => some 3⟩]⟩ "A" "IA").fst : Option Nat)
        = (CSpxResourceManager.CreateObject ⟨[⟨fun _ _ => some 3⟩]⟩ "A" "IA").fst ∧
    (((CSpxResourceManager.CreateObject ⟨[⟨fun _ _ => some (3 : Nat)⟩]⟩ "A" "IA").snd.CreateObject
        "A" "IA").fst
        = (CSpxResourceManager.CreateObject ⟨[⟨fun _ _ => some 3⟩]⟩ "A" "IA").fst) :=
  C7_determinism ⟨[⟨fun _ _ => some 3⟩]⟩ ⟨[⟨fun _ _ => some 3⟩]⟩ "A" "IA" rfl

/-- C8. Statelessness / frame property: running any sequence of `CreateObject`
calls leaves the manager's state (the factory list, contents and order) exactly
as it was, and each call's result is what a call against the initial state
returns — no call depends on any earlier call. -/
theorem C8_stateless_frame {α : Type} (rm : CSpxResourceManager α)
    (calls : List (String × String)) :
    (runCalls rm calls).snd = rm ∧
    (runCalls rm calls).fst
      = calls.map (fun q => (rm.CreateObject q.fst q.snd).fst) := by
  induction calls with
  | nil => exact ⟨rfl, rfl⟩
  | cons q rest ih =>
    refine ⟨ih.1, ?_⟩
    show (rm.CreateObject q.fst q.snd).fst :: (runCalls rm rest).fst
      = List.map (fun q => (rm.CreateObject q.fst q.snd).fst) (q :: rest)
    rw [ih.2, List.map_cons]

/-- C9. Argument forwarding: every factory consulted by `CreateObject` receives
exactly the className and interfaceName strings the caller passed, with no
transformation or substitution. -/
theorem C9_argument_forwarding {α : Type} (fs : List (ModuleFactory α))
    (className interfaceName : String) (ev : CallEvent)
    (hev : ev ∈ (CreateObjectTrace fs className interfaceName).snd) :
    ev.className = className ∧ ev.interfaceName = interfaceName :=
  createObjectLoopTrace_events fs 0 className interfaceName ev hev

/-- Witness for C9: the single consultation recorded for a one-factory list
carries exactly the argument strings "A" and "IA". -/
theorem C9_argument_forwarding_witness :
    (⟨0, "A", "IA"⟩ : CallEvent).className = "A" ∧
    (⟨0, "A", "IA"⟩ : CallEvent).interfaceName = "IA" :=
  C9_argument_forwarding ([⟨fun _ _ => some 4⟩] : List (ModuleFactory Nat)) "A" "IA"
    ⟨0, "A", "IA"⟩ (by decide)

/-- C10. Concrete list contents per platform: the constructor builds, on the
Linux branch, exactly the four handles for libcarbon-mock.so, the pma and kws
extension libraries, and carbon, in that order; on the macOS branch the same
four with .dylib names; and on the remaining (Windows) branch exactly five
handles, with carbon-unidec.dll after the core "carbon" entry. -/
theorem C10_concrete_lists {α : Type} (Get : String → ModuleFactory α) :
    (CSpxResourceManager.construct Get Platform.linux).m_moduleFactories
      = [ Get "libcarbon-mock.so",
          Get "libMicrosoft.CognitiveServices.Speech.extension.pma.so",
          Get "libMicrosoft.CognitiveServices.Speech.extension.kws.so",
          Get "carbon" ] ∧
    (CSpxResourceManager.construct Get Platform.mach).m_moduleFactories
      = [ Get "libcarbon-mock.dylib",
          Get "libMicrosoft.CognitiveServices.Speech.extension.pma.dylib",
          Get "libMicrosoft.CognitiveServices.Speech.extension.kws.dylib",
          Get "carbon" ] ∧
    (CSpxResourceManager.construct Get Platform.other).m_moduleFactories
      = [ Get "carbon-mock.dll",
          Get "Microsoft.CognitiveServices.Speech.extension.pma.dll",
          Get "Microsoft.CognitiveServices.Speech.extension.kws.dll",
          Get "carbon",
          Get "carbon-unidec.dll" ] :=
  ⟨rfl, rfl, rfl⟩
